import Mathlib

/-!
Verification of the context-resolution logic of this repository.

Embedded code:
* `context_aware_prompt` from `src/system_prompt/context_middleware.py`:
  a dynamic-prompt callback that assembles a system prompt from a base
  instruction, a long-conversation hint, and a stored user preference.
* the memory-retrieval section of `knowledge_orchestrator` from
  `src/multi_agent_example/knowledge_agent.py`.

Python's `"\n".join`, `dict.get`, truthiness tests and exception
propagation are modelled explicitly; a store lookup that may raise is an
`Except`-valued function.
-/

/-- Python's `"\n".join(parts)`: segments joined with a single newline. -/
def join_nl : List String → String
  | [] => ""
  | [s] => s
  | s :: rest => s ++ "\n" ++ join_nl rest

/-- A stored preference record, as returned by `store.get`.  `value` is the
record's `value` mapping (string keys to string values); `truthy` models the
Python truthiness of the returned object (the code tests `if user_prefs:`). -/
structure Item where
  truthy : Bool
  value : List (String × String)
deriving DecidableEq

/-- Python's `d.get(key, dflt)` on a string-keyed mapping. -/
def dict_get (d : List (String × String)) (key dflt : String) : String :=
  match d.find? (fun p => p.fst == key) with
  | some p => p.snd
  | none => dflt

/-- The `Context` dataclass of `context_middleware.py`. -/
structure Context where
  user_id : String

/-- The runtime handle of the request: the per-request context and the
store accessor.  `store_get ns key` models `store.get(ns, key)`, which
returns an item, `None`, or raises (the `Except.error` case). -/
structure Runtime (ε : Type) where
  context : Context
  store_get : List String → String → Except ε (Option Item)

/-- The `ModelRequest` seen by the middleware: runtime handle plus the
conversation messages (only their count is used by the code). -/
structure ModelRequest (ε : Type) where
  runtime : Runtime ε
  messages : List String

def base_segment : String := "You are a helpful assistant."

def long_conversation_segment : String := "This is a long conversation - be extra concise."

def style_segment (style : String) : String := "User prefers " ++ style ++ " responses."

/-- The segment list assembled by `context_aware_prompt`, before the final
join.  Mirrors the source line by line: start from the base segment, append
the long-conversation segment when `len(request.messages) > 10`, look up
`store.get(("preferences",), user_id)` (errors propagate), and when the
result is truthy append the style segment built from
`user_prefs.value.get("communication_style", "balanced")`. -/
def prompt_segments {ε : Type} (request : ModelRequest ε) : Except ε (List String) :=
  let user_id := request.runtime.context.user_id
  let message_count := request.messages.length
  let parts0 := [base_segment]
  let parts1 := if message_count > 10 then parts0 ++ [long_conversation_segment] else parts0
  match request.runtime.store_get ["preferences"] user_id with
  | Except.error e => Except.error e
  | Except.ok user_prefs =>
    match user_prefs with
    | some it =>
      if it.truthy then
        Except.ok (parts1 ++ [style_segment (dict_get it.value "communication_style" "balanced")])
      else
        Except.ok parts1
    | none => Except.ok parts1

/-- `context_aware_prompt` from `context_middleware.py`: the assembled
segments joined with a newline.  A raising store lookup propagates. -/
def context_aware_prompt {ε : Type} (request : ModelRequest ε) : Except ε String :=
  match prompt_segments request with
  | Except.error e => Except.error e
  | Except.ok parts => Except.ok (join_nl parts)

/-- `context_aware_prompt` together with its console output: the returned
value paired with the list of `print`ed lines, in order.  When the store
lookup raises, the lines printed before the lookup have already been
emitted. -/
def context_aware_prompt_traced {ε : Type} (request : ModelRequest ε) :
    Except ε String × List String :=
  let user_id := request.runtime.context.user_id
  let message_count := request.messages.length
  let log0 := [" Context Middleware: user_id=" ++ user_id ++ ", messages=" ++ toString message_count]
  let parts0 := [base_segment]
  let parts1 := if message_count > 10 then parts0 ++ [long_conversation_segment] else parts0
  let log1 := if message_count > 10 then log0 ++ [" State Context: Long conversation detected"] else log0
  match request.runtime.store_get ["preferences"] user_id with
  | Except.error e => (Except.error e, log1)
  | Except.ok user_prefs =>
    match user_prefs with
    | some it =>
      if it.truthy then
        let style := dict_get it.value "communication_style" "balanced"
        let final_prompt := join_nl (parts1 ++ [style_segment style])
        (Except.ok final_prompt,
          log1 ++ ["Store Context: Applied " ++ style ++ " preference",
                   "Final prompt: " ++ final_prompt])
      else
        let final_prompt := join_nl parts1
        (Except.ok final_prompt,
          log1 ++ ["Store Context: No user preferences found",
                   "Final prompt: " ++ final_prompt])
    | none =>
      let final_prompt := join_nl parts1
      (Except.ok final_prompt,
        log1 ++ ["Store Context: No user preferences found",
                 "Final prompt: " ++ final_prompt])

/-- Python truthiness of a `store.get` result: `None` is falsy, an item has
its object truthiness. -/
def pyTruthy : Option Item → Bool
  | none => false
  | some it => it.truthy

/-- The style the resolver applies for a given lookup result: `none` when
the result is falsy, otherwise the record's `communication_style` with
default `"balanced"`. -/
def lookup_style : Option Item → Option String
  | none => none
  | some it =>
    if it.truthy then some (dict_get it.value "communication_style" "balanced") else none

/-- Closed form of the assembled segment list as a function of the message
count and the lookup result. -/
def code_parts (message_count : Nat) (r : Option Item) : List String :=
  let parts1 :=
    if message_count > 10 then [base_segment, long_conversation_segment] else [base_segment]
  match lookup_style r with
  | some style => parts1 ++ [style_segment style]
  | none => parts1

/-- Segment list transcribed from the spec's algorithm (§4.1): base segment,
then the long-conversation segment when `message_count > 10`, then the style
segment when a preference record is present, joined in that order. -/
def spec_segments (message_count : Nat) (r : Option Item) : List String :=
  [base_segment]
    ++ (if message_count > 10 then [long_conversation_segment] else [])
    ++ (match lookup_style r with
        | some style => [style_segment style]
        | none => [])

/-- A segment counts as a style segment when it starts with the
`"User prefers "` marker (compared on the underlying character lists). -/
def is_style_segment (s : String) : Bool :=
  "User prefers ".data.isPrefixOf s.data

/-- First line of a string: the characters before the first newline. -/
def first_line (s : String) : String :=
  String.mk (s.data.takeWhile (fun c => c != '\n'))

theorem prompt_segments_eq {ε : Type} (request : ModelRequest ε) (r : Option Item)
    (h : request.runtime.store_get ["preferences"] request.runtime.context.user_id =
      Except.ok r) :
    prompt_segments request = Except.ok (code_parts request.messages.length r) := by
  unfold prompt_segments code_parts
  dsimp only
  rw [h]
  cases r with
  | none => simp [lookup_style]
  | some it =>
    by_cases ht : it.truthy
    · simp [lookup_style, ht]
    · simp [lookup_style, ht]

theorem code_parts_eq_spec (message_count : Nat) (r : Option Item) :
    code_parts message_count r = spec_segments message_count r := by
  unfold code_parts spec_segments
  cases lookup_style r <;> by_cases hm : message_count > 10 <;> simp [hm]

theorem style_segment_ne_long (style : String) :
    style_segment style ≠ long_conversation_segment := by
  intro h
  have hL : (style_segment style).data.head? = some 'U' := by
    show (("User prefers " ++ style) ++ " responses.").data.head? = some 'U'
    rw [String.data_append, String.data_append]
    rfl
  rw [h] at hL
  exact absurd hL (by decide)

theorem is_style_segment_style (style : String) :
    is_style_segment (style_segment style) = true := by
  unfold is_style_segment style_segment
  rw [List.isPrefixOf_iff_prefix, String.data_append, String.data_append, List.append_assoc]
  exact List.prefix_append _ _

theorem count_long (message_count : Nat) (r : Option Item) :
    (code_parts message_count r).count long_conversation_segment =
      (if message_count > 10 then 1 else 0) := by
  have hs : ∀ style : String, (style_segment style == long_conversation_segment) = false :=
    fun style => beq_eq_false_iff_ne.mpr (style_segment_ne_long style)
  unfold code_parts
  cases h : lookup_style r <;> by_cases hm : message_count > 10 <;>
    simp [hm, List.count_cons, List.count_append, hs,
      show base_segment ≠ long_conversation_segment from by decide]

theorem filter_style (message_count : Nat) (r : Option Item) :
    (code_parts message_count r).filter is_style_segment =
      ((lookup_style r).map style_segment).toList := by
  unfold code_parts
  cases h : lookup_style r <;> by_cases hm : message_count > 10 <;>
    simp [hm, List.filter_append, List.filter_cons, is_style_segment_style,
      show is_style_segment base_segment = false from by decide,
      show is_style_segment long_conversation_segment = false from by decide]

theorem code_parts_shape (message_count : Nat) (r : Option Item) :
    code_parts message_count r = base_segment :: (code_parts message_count r).tail := by
  unfold code_parts
  cases lookup_style r <;> by_cases hm : message_count > 10 <;> simp [hm]

theorem code_parts_length (message_count : Nat) (r : Option Item) :
    1 ≤ (code_parts message_count r).length ∧ (code_parts message_count r).length ≤ 3 := by
  unfold code_parts
  cases lookup_style r <;> by_cases hm : message_count > 10 <;> simp [hm]

theorem takeWhile_append_stop (p : Char → Bool) (l1 : List Char) (c : Char) (l2 : List Char)
    (h1 : ∀ x ∈ l1, p x = true) (hc : p c = false) :
    (l1 ++ c :: l2).takeWhile p = l1 := by
  induction l1 with
  | nil => simp [List.takeWhile_cons, hc]
  | cons a t ih =>
    have ha : p a = true := h1 a (by simp)
    rw [List.cons_append, List.takeWhile_cons, if_pos ha,
      ih (fun x hx => h1 x (by simp [hx]))]

theorem first_line_join (rest : List String) :
    first_line (join_nl (base_segment :: rest)) = base_segment := by
  cases rest with
  | nil => decide
  | cons r rs =>
    show first_line ((base_segment ++ "\n") ++ join_nl (r :: rs)) = base_segment
    unfold first_line
    rw [String.data_append, String.data_append, List.append_assoc]
    rw [show ("\n".data ++ (join_nl (r :: rs)).data : List Char) =
      '\n' :: (join_nl (r :: rs)).data from rfl]
    rw [takeWhile_append_stop _ _ _ _ (by decide) (by decide)]

theorem ne_empty_of_head (s : String) (c : Char) (h : s.data.head? = some c) : s ≠ "" := by
  intro he
  rw [he] at h
  rw [show ("" : String).data.head? = none from rfl] at h
  exact Option.noConfusion h

/-- Lowercasing of a string, character by character (Python's `str.lower`
restricted to the ASCII range exercised by the code). -/
def str_lower (s : String) : String := String.mk (s.data.map Char.toLower)

/-- Python's `needle in hay` membership test on the underlying character
lists. -/
def list_has_substr (needle : List Char) : List Char → Bool
  | [] => needle.isPrefixOf []
  | c :: rest => needle.isPrefixOf (c :: rest) || list_has_substr needle rest

/-- Python's `needle in hay` on strings. -/
def str_has_substr (hay needle : String) : Bool :=
  list_has_substr needle.data hay.data

/-- The credentials-expiry test of `knowledge_orchestrator`:
`"ExpiredTokenException" in error_msg or "expired" in error_msg.lower()`. -/
def is_expired_error (error_msg : String) : Bool :=
  str_has_substr error_msg "ExpiredTokenException" ||
    str_has_substr (str_lower error_msg) "expired"

/-- One entry of the mem0 retrieval result: a dict with a `memory` field. -/
structure MemoryEntry where
  memory : String

/-- The dict returned by `mem0_memory(action="retrieve", ...)`: its Python
truthiness and its optional `results` list (`past_memories.get("results")`). -/
structure RetrieveResult where
  truthy : Bool
  results : Option (List MemoryEntry)

/-- Python truthiness of `past_memories and past_memories.get("results")`:
the dict is truthy and the `results` entry exists and is a non-empty list. -/
def retrieve_truthy (pm : RetrieveResult) : Bool :=
  pm.truthy &&
    (match pm.results with
     | some l => !l.isEmpty
     | none => false)

/-- The `memory_context` string computed by `knowledge_orchestrator` from
the outcome of the mem0 retrieval call (`Except.error` models the raised
exception caught by the `try/except` block). -/
def memory_context_of : Except String RetrieveResult → String
  | Except.error e =>
    if is_expired_error e then
      "(Memory unavailable - AWS credentials expired.)"
    else
      "(Memory unavailable: " ++ e ++ ")"
  | Except.ok pm =>
    if retrieve_truthy pm then
      join_nl ((pm.results.getD []).map (fun m => "- " ++ m.memory))
    else
      "(No relevant prior memory found.)"

/-- The `orchestrator_prompt` f-string of `knowledge_orchestrator`. -/
def orchestrator_prompt (memory_context topic : String) : String :=
  "\n    MEMORY CONTEXT:\n    " ++ memory_context ++ "\n\n    USER QUERY:\n    " ++ topic ++
    "\n\n    TASK:\n    Decide which specialized agent to use, invoke it, and return a unified, domain-specific response.\n    "

/-- `knowledge_orchestrator` from `knowledge_agent.py`, with the external
collaborators abstracted: `retrieved` is the outcome of the mem0 retrieval
call, `run_model` is the orchestrator agent invocation, and
`store_outcome` is the outcome of the final mem0 store call (its
exceptions are caught and only logged, so it cannot affect the returned
text). -/
def knowledge_orchestrator (retrieved : Except String RetrieveResult)
    (run_model : String → String) (topic : String)
    (_store_outcome : Except String Unit) : String :=
  let memory_context := memory_context_of retrieved
  let prompt := orchestrator_prompt memory_context topic
  let output_text := run_model prompt
  output_text

/-- Claim C1: for every call whose preference lookup returns (rather than
raises), the long-conversation segment appears among the assembled segments
exactly once when the message count exceeds 10, and not at all otherwise;
a count of exactly 10 does not trigger it. -/
theorem claim_C1_long_conversation {ε : Type} (request : ModelRequest ε) (r : Option Item)
    (h : request.runtime.store_get ["preferences"] request.runtime.context.user_id =
      Except.ok r) :
    ∃ parts, prompt_segments request = Except.ok parts ∧
      parts.count long_conversation_segment =
        (if request.messages.length > 10 then 1 else 0) :=
  ⟨_, prompt_segments_eq request r h, count_long _ r⟩

theorem claim_C1_long_conversation_witness :
    (∃ parts,
      prompt_segments
          (⟨⟨⟨"alice"⟩, fun _ _ => Except.ok (none : Option Item)⟩,
            List.replicate 15 "hi"⟩ : ModelRequest String) = Except.ok parts ∧
        parts.count long_conversation_segment =
          (if (List.replicate 15 "hi").length > 10 then 1 else 0)) ∧
    (∃ parts,
      prompt_segments
          (⟨⟨⟨"alice"⟩, fun _ _ => Except.ok (none : Option Item)⟩,
            List.replicate 10 "hi"⟩ : ModelRequest String) = Except.ok parts ∧
        parts.count long_conversation_segment =
          (if (List.replicate 10 "hi").length > 10 then 1 else 0)) :=
  ⟨claim_C1_long_conversation _ none rfl, claim_C1_long_conversation _ none rfl⟩

/-- Claim C2: a style segment is among the assembled segments exactly when
the preference lookup returns a (truthy) record, in which case the segments
matching the style shape are exactly the one segment
`"User prefers {style} responses."`, `style` being the record's
`communication_style` value with default `"balanced"`. -/
theorem claim_C2_style_segment {ε : Type} (request : ModelRequest ε) (r : Option Item)
    (h : request.runtime.store_get ["preferences"] request.runtime.context.user_id =
      Except.ok r) :
    ∃ parts, prompt_segments request = Except.ok parts ∧
      parts.filter is_style_segment = ((lookup_style r).map style_segment).toList :=
  ⟨_, prompt_segments_eq request r h, filter_style _ r⟩

theorem claim_C2_style_segment_witness :
    ∃ parts,
      prompt_segments
          (⟨⟨⟨"bob"⟩,
            fun _ _ => Except.ok (some ⟨true, [("communication_style", "concise")]⟩ : Option Item)⟩,
            ["q"]⟩ : ModelRequest String) = Except.ok parts ∧
        parts.filter is_style_segment =
          ((lookup_style (some ⟨true, [("communication_style", "concise")]⟩)).map
            style_segment).toList :=
  claim_C2_style_segment _ (some ⟨true, [("communication_style", "concise")]⟩) rfl

/-- Claim C3: whenever the preference lookup returns, the resolver returns a
non-empty string whose first line is exactly the base segment
`"You are a helpful assistant."`. -/
theorem claim_C3_first_line {ε : Type} (request : ModelRequest ε) (r : Option Item)
    (h : request.runtime.store_get ["preferences"] request.runtime.context.user_id =
      Except.ok r) :
    ∃ out, context_aware_prompt request = Except.ok out ∧ out ≠ "" ∧
      first_line out = base_segment := by
  have hp := prompt_segments_eq request r h
  have hfl : first_line (join_nl (code_parts request.messages.length r)) = base_segment := by
    rw [code_parts_shape]
    exact first_line_join _
  refine ⟨join_nl (code_parts request.messages.length r), ?_, ?_, hfl⟩
  · unfold context_aware_prompt
    rw [hp]
  · intro he
    rw [he] at hfl
    exact absurd hfl (by decide)

theorem claim_C3_first_line_witness :
    ∃ out,
      context_aware_prompt
          (⟨⟨⟨"carol"⟩,
            fun _ _ => Except.ok (some ⟨true, []⟩ : Option Item)⟩,
            List.replicate 12 "m"⟩ : ModelRequest String) = Except.ok out ∧
        out ≠ "" ∧ first_line out = base_segment :=
  claim_C3_first_line _ (some ⟨true, []⟩) rfl

/-- Claim C4: the returned string is exactly the newline-join of the
segments in the fixed order base, long-conversation (if any), style (if
any) — stated as agreement with the segment list transcribed from the spec
— and, concretely, 15 messages with no preference record yield
`"You are a helpful assistant.\nThis is a long conversation - be extra concise."`. -/
theorem claim_C4_join_order :
    (∀ (ε : Type) (request : ModelRequest ε) (r : Option Item),
      request.runtime.store_get ["preferences"] request.runtime.context.user_id =
        Except.ok r →
      context_aware_prompt request =
        Except.ok (join_nl (spec_segments request.messages.length r))) ∧
    context_aware_prompt
        (⟨⟨⟨"bob"⟩, fun _ _ => Except.ok (none : Option Item)⟩,
          List.replicate 15 "m"⟩ : ModelRequest String) =
      Except.ok "You are a helpful assistant.\nThis is a long conversation - be extra concise." := by
  constructor
  · intro ε request r h
    unfold context_aware_prompt
    rw [prompt_segments_eq request r h, code_parts_eq_spec]
  · rfl

theorem claim_C4_join_order_witness :
    context_aware_prompt
        (⟨⟨⟨"carol"⟩, fun _ _ => Except.ok (some ⟨true, []⟩ : Option Item)⟩,
          ["a"]⟩ : ModelRequest String) =
      Except.ok (join_nl (spec_segments 1 (some ⟨true, []⟩))) :=
  claim_C4_join_order.1 String _ (some ⟨true, []⟩) rfl

/-- Claim C5: the resolver is deterministic — two calls with the same
context and messages, against stores whose preference snapshot for that
caller agrees, return byte-identical results (even if the stores differ
on every other key). -/
theorem claim_C5_deterministic {ε : Type} (messages : List String) (ctx : Context)
    (g1 g2 : List String → String → Except ε (Option Item))
    (h : g1 ["preferences"] ctx.user_id = g2 ["preferences"] ctx.user_id) :
    context_aware_prompt (⟨⟨ctx, g1⟩, messages⟩ : ModelRequest ε) =
      context_aware_prompt (⟨⟨ctx, g2⟩, messages⟩ : ModelRequest ε) := by
  unfold context_aware_prompt prompt_segments
  dsimp only
  rw [h]

theorem claim_C5_deterministic_witness :
    context_aware_prompt
        (⟨⟨⟨"alice"⟩,
          fun _ key => if key == "alice"
            then Except.ok (some ⟨true, [("communication_style", "concise")]⟩ : Option Item)
            else Except.ok none⟩, ["x"]⟩ : ModelRequest String) =
      context_aware_prompt
        (⟨⟨⟨"alice"⟩,
          fun _ key => if key == "alice"
            then Except.ok (some ⟨true, [("communication_style", "concise")]⟩ : Option Item)
            else Except.error "store offline"⟩, ["x"]⟩ : ModelRequest String) :=
  claim_C5_deterministic ["x"] ⟨"alice"⟩ _ _ rfl

/-- Claim C6: when the store lookup raises, the resolver propagates that
failure unmodified — no retry, no default, no prompt string returned. -/
theorem claim_C6_lookup_failure {ε : Type} (request : ModelRequest ε) (e : ε)
    (h : request.runtime.store_get ["preferences"] request.runtime.context.user_id =
      Except.error e) :
    context_aware_prompt request = Except.error e := by
  unfold context_aware_prompt prompt_segments
  dsimp only
  rw [h]

theorem claim_C6_lookup_failure_witness :
    context_aware_prompt
        (⟨⟨⟨"dana"⟩, fun _ _ => (Except.error "connection refused" : Except String (Option Item))⟩,
          ["m1", "m2"]⟩ : ModelRequest String) =
      Except.error "connection refused" :=
  claim_C6_lookup_failure _ "connection refused" rfl

/-- Claim C7: the diagnostic trace has no effect on the returned value —
the value component of the traced run equals the pure resolver, which is a
function of the request (context, messages and store snapshot) alone; the
inputs are plain values the embedding never alters. -/
theorem claim_C7_trace_independent {ε : Type} (request : ModelRequest ε) :
    (context_aware_prompt_traced request).fst = context_aware_prompt request := by
  unfold context_aware_prompt_traced context_aware_prompt prompt_segments
  dsimp only
  cases request.runtime.store_get ["preferences"] request.runtime.context.user_id with
  | error e => rfl
  | ok r =>
    cases r with
    | none => rfl
    | some it => by_cases ht : it.truthy <;> simp [ht]

/-- Claim C8: presence of a preference record is decided by Python
truthiness — a falsy lookup result (`None` or a falsy record object) makes
the resolver behave exactly as if no record were present. -/
theorem claim_C8_truthiness {ε : Type} (request : ModelRequest ε) (r : Option Item)
    (h : request.runtime.store_get ["preferences"] request.runtime.context.user_id =
      Except.ok r)
    (hf : pyTruthy r = false) :
    context_aware_prompt request =
      context_aware_prompt
        (⟨⟨request.runtime.context, fun _ _ => Except.ok none⟩,
          request.messages⟩ : ModelRequest ε) := by
  have hl : lookup_style r = none := by
    cases r with
    | none => rfl
    | some it =>
      have : it.truthy = false := hf
      simp [lookup_style, this]
  unfold context_aware_prompt
  rw [prompt_segments_eq request r h,
    prompt_segments_eq
      (⟨⟨request.runtime.context, fun _ _ => Except.ok none⟩, request.messages⟩ : ModelRequest ε)
      none rfl]
  dsimp only
  unfold code_parts
  rw [hl]
  rfl

theorem claim_C8_truthiness_witness :
    context_aware_prompt
        (⟨⟨⟨"dave"⟩,
          fun _ _ => Except.ok (some ⟨false, [("communication_style", "formal")]⟩ : Option Item)⟩,
          ["x", "y"]⟩ : ModelRequest String) =
      context_aware_prompt
        (⟨⟨⟨"dave"⟩, fun _ _ => Except.ok (none : Option Item)⟩,
          ["x", "y"]⟩ : ModelRequest String) :=
  claim_C8_truthiness _ (some ⟨false, [("communication_style", "formal")]⟩) rfl rfl

theorem code_parts_grows (message_count : Nat) (r : Option Item) :
    [base_segment] <+: code_parts message_count r ∧
      (message_count > 10 →
        [base_segment, long_conversation_segment] <+: code_parts message_count r) := by
  unfold code_parts
  dsimp only
  cases lookup_style r with
  | none =>
    by_cases hm : message_count > 10
    · rw [if_pos hm]
      exact ⟨⟨[long_conversation_segment], rfl⟩, fun _ => ⟨[], rfl⟩⟩
    · rw [if_neg hm]
      exact ⟨⟨[], rfl⟩, fun hc => absurd hc hm⟩
  | some style =>
    by_cases hm : message_count > 10
    · rw [if_pos hm]
      exact ⟨⟨[long_conversation_segment, style_segment style], rfl⟩,
        fun _ => ⟨[style_segment style], rfl⟩⟩
    · rw [if_neg hm]
      exact ⟨⟨[style_segment style], rfl⟩, fun hc => absurd hc hm⟩

/-- Claim C9: whenever the lookup returns, the segment list the resolver
assembles has at least one and at most three segments, the returned prompt
is exactly its newline-join, and no segment is ever removed once appended:
the base segment stays a prefix, and past the threshold so does the pair
base segment, long-conversation segment. -/
theorem claim_C9_segment_bounds {ε : Type} (request : ModelRequest ε) (r : Option Item)
    (h : request.runtime.store_get ["preferences"] request.runtime.context.user_id =
      Except.ok r) :
    ∃ parts, prompt_segments request = Except.ok parts ∧
      context_aware_prompt request = Except.ok (join_nl parts) ∧
      1 ≤ parts.length ∧ parts.length ≤ 3 ∧
      [base_segment] <+: parts ∧
      (request.messages.length > 10 →
        [base_segment, long_conversation_segment] <+: parts) := by
  refine ⟨code_parts request.messages.length r, prompt_segments_eq request r h, ?_,
    (code_parts_length _ r).1, (code_parts_length _ r).2,
    (code_parts_grows _ r).1, (code_parts_grows _ r).2⟩
  unfold context_aware_prompt
  rw [prompt_segments_eq request r h]

theorem claim_C9_segment_bounds_witness :
    ∃ parts,
      prompt_segments
          (⟨⟨⟨"erin"⟩,
            fun _ _ => Except.ok (some ⟨true, [("communication_style", "formal")]⟩ : Option Item)⟩,
            List.replicate 11 "m"⟩ : ModelRequest String) = Except.ok parts ∧
      context_aware_prompt
          (⟨⟨⟨"erin"⟩,
            fun _ _ => Except.ok (some ⟨true, [("communication_style", "formal")]⟩ : Option Item)⟩,
            List.replicate 11 "m"⟩ : ModelRequest String) = Except.ok (join_nl parts) ∧
        1 ≤ parts.length ∧ parts.length ≤ 3 ∧
        [base_segment] <+: parts ∧
        ((List.replicate 11 "m").length > 10 →
          [base_segment, long_conversation_segment] <+: parts) :=
  claim_C9_segment_bounds _ (some ⟨true, [("communication_style", "formal")]⟩) rfl

theorem memory_context_error (e : String) :
    memory_context_of (Except.error e) =
      (if is_expired_error e then "(Memory unavailable - AWS credentials expired.)"
       else "(Memory unavailable: " ++ e ++ ")") := rfl

/-- Claim C10: every exception of the mem0 retrieval call is caught and
replaced by a non-empty memory-context placeholder starting with
`"(Memory unavailable"` (the credentials-expired variant included), and the
orchestrator still invokes the model on the prompt built from that
placeholder instead of propagating the failure. -/
theorem claim_C10_memory_failure (e topic : String) (run_model : String → String)
    (store_outcome : Except String Unit) :
    memory_context_of (Except.error e) ≠ "" ∧
    "(Memory unavailable".data <+: (memory_context_of (Except.error e)).data ∧
    knowledge_orchestrator (Except.error e) run_model topic store_outcome =
      run_model (orchestrator_prompt (memory_context_of (Except.error e)) topic) := by
  refine ⟨?_, ?_, rfl⟩ <;> cases hx : is_expired_error e
  · have hh : (memory_context_of (Except.error e)).data.head? = some '(' := by
      rw [memory_context_error, if_neg (by simp [hx])]
      rw [String.data_append, String.data_append]
      rfl
    exact ne_empty_of_head _ '(' hh
  · have hm : memory_context_of (Except.error e) =
        "(Memory unavailable - AWS credentials expired.)" := by
      rw [memory_context_error, if_pos (by simp [hx])]
    rw [hm]
    decide
  · have hm : memory_context_of (Except.error e) =
        ("(Memory unavailable: " ++ e) ++ ")" := by
      rw [memory_context_error, if_neg (by simp [hx])]
    rw [hm]
    have h1 : "(Memory unavailable".data <+: "(Memory unavailable: ".data := ⟨": ".data, rfl⟩
    have h2 : "(Memory unavailable: ".data <+: (("(Memory unavailable: " ++ e) ++ ")").data := by
      rw [String.data_append, String.data_append, List.append_assoc]
      exact List.prefix_append _ _
    exact h1.trans h2
  · have hm : memory_context_of (Except.error e) =
        "(Memory unavailable - AWS credentials expired.)" := by
      rw [memory_context_error, if_pos (by simp [hx])]
    rw [hm]
    decide
